import Mathlib

/-!
Shallow embedding of the LIFU transmitter firmware configuration store
(src/Core/Src/lifu_config.c, src/Core/Inc/lifu_config.h) and the flash
primitive layer (src/Core/Src/flash_eeprom.c).

Machine integers are modelled as Nat with explicit reduction modulo
2 to the relevant power exactly where the C types force it.  Flash is a
byte-addressed store, Nat to Nat.  Fallible HAL calls return a status;
the flash controller itself (HAL_FLASHEx_Erase, HAL_FLASH_Program) is
modelled by a hardware oracle saying whether it accepts the operation.
-/

set_option maxRecDepth 16384

-- ------------------- Constants (lifu_config.h, memory_map.h) -------------------

/-- Format identifier stored in flash, LIFU_MAGIC in lifu_config.h. -/
def LIFU_MAGIC : Nat := 0x4C494655

/-- Schema version stored in flash, LIFU_VER in lifu_config.h. -/
def LIFU_VER : Nat := 0x00010002

/-- One 2KB flash page holds the record (lifu_config.h). -/
def LIFU_CFG_PAGE_SIZE : Nat := 2048

/-- Modelled from the spec: memory_map.h is not under src/; the header
comment in lifu_config.h fixes the config page at 0x0803F800 and the end
address at 0x08040000 (end of the 256KB flash of the STM32L443). -/
def LIFU_CFG_PAGE_ADDR : Nat := 0x0803F800

/-- Modelled from the spec: ADDR_FLASH_END_ADDRESS from memory_map.h,
one byte past the last flash byte. -/
def LIFU_CFG_PAGE_END : Nat := 0x08040000

/-- FLASH_BASE for the STM32L4 (flash_eeprom.c GetPage arithmetic). -/
def FLASH_BASE : Nat := 0x08000000

/-- FLASH_PAGE_SIZE of the STM32L443: 2KB pages. -/
def FLASH_PAGE_SIZE : Nat := 2048

/-- Modelled from the spec: FLASH_BANK_SIZE of the single-bank 256KB part. -/
def FLASH_BANK_SIZE : Nat := 0x40000

/-- Modelled from the spec: the compiled lifu_config.h must declare the
hv_settng, hv_enabled and auto_on members that lifu_config.c reads and
writes; the header present under src/ is a stale revision without them.
The reconstructed packed layout places them between seq and crc, which is
the only placement under which the header's LIFU_CFG_HEADER_SIZE of 16
equals offsetof(lifu_cfg_t, crc) (lifu_cfg_calc_crc's comment: CRC across
everything BEFORE the crc field), the two _Static_asserts hold, and the
struct fills the 2048-byte page: magic at 0, version at 4, seq at 8,
hv_settng at 12, hv_enabled at 14, auto_on at 15, crc at 16, reserved at
18, json at 20.  The json capacity is therefore 2048 - 20 = 2028. -/
def LIFU_CFG_JSON_MAX : Nat := 2028

-- ------------------- CRC16-CCITT (lifu_config.c) -------------------

/-- One shift round of the inner loop of crc16_ccitt: if the top bit of
the 16-bit accumulator is set, shift left and xor 0x1021, else shift
left; uint16_t arithmetic is Nat modulo 65536. -/
def crc16_round (crc : Nat) : Nat :=
  if crc &&& 0x8000 ≠ 0 then ((crc <<< 1) ^^^ 0x1021) % 65536
  else (crc <<< 1) % 65536

/-- Eight rounds of crc16_round, the inner for-loop of crc16_ccitt. -/
def crc16_rounds : Nat → Nat → Nat
  | crc, 0 => crc
  | crc, n + 1 => crc16_rounds (crc16_round crc) n

/-- Absorb one input byte: xor it into the high byte of the accumulator
(the cast to uint16_t keeps 16 bits), then run 8 shift rounds. -/
def crc16_update (crc b : Nat) : Nat :=
  crc16_rounds ((crc ^^^ (((b % 256) <<< 8) % 65536)) % 65536) 8

/-- crc16_ccitt from lifu_config.c: CRC-16/CCITT-FALSE, poly 0x1021,
init 0xFFFF, no final xor, folded over the input bytes. -/
def crc16_ccitt (data : List Nat) : Nat :=
  data.foldl crc16_update 0xFFFF

-- ------------------- The record (lifu_cfg_t) -------------------

/-- lifu_cfg_t.  Fields in on-flash order; json is the byte list of the
fixed 2028-byte payload array (each entry one byte). -/
structure lifu_cfg_t where
  magic : Nat
  version : Nat
  seq : Nat
  hv_settng : Nat
  hv_enabled : Nat
  auto_on : Nat
  crc : Nat
  reserved : Nat
  json : List Nat
deriving DecidableEq

/-- Little-endian bytes of a 16-bit value. -/
def le16 (n : Nat) : List Nat := [n % 256, n / 256 % 256]

/-- Little-endian bytes of a 32-bit value. -/
def le32 (n : Nat) : List Nat :=
  [n % 256, n / 256 % 256, n / 65536 % 256, n / 16777216 % 256]

/-- The 16 bytes preceding the crc field, offsetof(lifu_cfg_t, crc). -/
def lifu_cfg_crc_region (c : lifu_cfg_t) : List Nat :=
  le32 c.magic ++ le32 c.version ++ le32 c.seq ++ le16 c.hv_settng ++
    [c.hv_enabled % 256, c.auto_on % 256]

/-- The full 2048-byte in-memory image of the struct, in layout order. -/
def lifu_cfg_bytes (c : lifu_cfg_t) : List Nat :=
  lifu_cfg_crc_region c ++ le16 c.crc ++ le16 c.reserved ++
    c.json.map (· % 256)

/-- lifu_cfg_calc_crc: crc16_ccitt over the struct bytes before the crc
field, i.e. over offsetof(lifu_cfg_t, crc) = 16 bytes. -/
def lifu_cfg_calc_crc (c : lifu_cfg_t) : Nat :=
  crc16_ccitt (lifu_cfg_crc_region c)

-- ------------------- Helpers (lifu_config.c) -------------------

/-- strnlen over a byte list: index of the first NUL, capped at maxlen. -/
def strnlen : List Nat → Nat → Nat
  | _, 0 => 0
  | [], _ + 1 => 0
  | b :: rest, n + 1 => if b = 0 then 0 else strnlen rest n + 1

/-- The json transformation of lifu_cfg_normalize_json: force a NUL at
the last byte, then zero the tail after the first NUL (memset from
used + 1 through the end) so the image is deterministic. -/
def json_normalize (j : List Nat) : List Nat :=
  let j0 := j.set (LIFU_CFG_JSON_MAX - 1) 0
  let used := strnlen j0 LIFU_CFG_JSON_MAX
  if used < LIFU_CFG_JSON_MAX - 1 then
    j0.take (used + 1) ++ List.replicate (LIFU_CFG_JSON_MAX - 1 - used) 0
  else j0

/-- lifu_cfg_normalize_json applied to the whole record. -/
def lifu_cfg_normalize_json (c : lifu_cfg_t) : lifu_cfg_t :=
  { c with json := json_normalize c.json }

/-- lifu_cfg_make_defaults: memset 0, set magic/version, seq 0, empty
json, normalize, then store the computed CRC. -/
def lifu_cfg_make_defaults : lifu_cfg_t :=
  let d : lifu_cfg_t :=
    { magic := LIFU_MAGIC, version := LIFU_VER, seq := 0, hv_settng := 0,
      hv_enabled := 0, auto_on := 0, crc := 0, reserved := 0,
      json := List.replicate LIFU_CFG_JSON_MAX 0 }
  let d := lifu_cfg_normalize_json d
  { d with crc := lifu_cfg_calc_crc d }

/-- lifu_cfg_is_valid: magic, version, a NUL somewhere in the json
capacity (memchr), and the recomputed CRC matching the stored crc. -/
def lifu_cfg_is_valid (c : lifu_cfg_t) : Bool :=
  c.magic == LIFU_MAGIC && c.version == LIFU_VER &&
    (c.json.take LIFU_CFG_JSON_MAX).any (fun b => b == 0) &&
    lifu_cfg_calc_crc c == c.crc

-- ------------------- Flash primitive layer (flash_eeprom.c) -------------------

/-- HAL_StatusTypeDef of the STM32 HAL. -/
inductive HAL_StatusTypeDef where
  | HAL_OK
  | HAL_ERROR
  | HAL_BUSY
  | HAL_TIMEOUT
deriving DecidableEq

export HAL_StatusTypeDef (HAL_OK HAL_ERROR)

/-- Byte-addressed flash contents. -/
def Flash : Type := Nat → Nat

/-- Modelled from the spec: the flash controller behind HAL_FLASHEx_Erase
and HAL_FLASH_Program may reject an operation (HardwareFailure).  The
oracle says whether the controller accepts the erase, resp. the program
sequence, of one call; on rejection the call reports HAL_ERROR with the
flash unchanged.  Unlocking is modelled as always succeeding, and the
post-program read-back verification never fails over this memory model,
since programming writes exactly the requested bytes. -/
structure Hw where
  eraseOk : Bool
  progOk : Bool
deriving DecidableEq

/-- GetPage from flash_eeprom.c: page index of an address. -/
def GetPage (addr : Nat) : Nat :=
  if addr < FLASH_BASE + FLASH_BANK_SIZE then (addr - FLASH_BASE) / FLASH_PAGE_SIZE
  else (addr - (FLASH_BASE + FLASH_BANK_SIZE)) / FLASH_PAGE_SIZE

/-- Flash_Erase: empty or inverted half-open range is an error;
otherwise the covering pages from GetPage(start) through
GetPage(end - 1) are erased to 0xFF as one batch. -/
def Flash_Erase (hw : Hw) (start_address end_address_exclusive : Nat) (f : Flash) :
    HAL_StatusTypeDef × Flash :=
  if end_address_exclusive ≤ start_address then (HAL_ERROR, f)
  else if hw.eraseOk then
    let page_first := GetPage start_address
    let page_last := GetPage (end_address_exclusive - 1)
    (HAL_OK, fun a =>
      if FLASH_BASE + page_first * FLASH_PAGE_SIZE ≤ a ∧
          a < FLASH_BASE + (page_last + 1) * FLASH_PAGE_SIZE then 0xFF
      else f a)
  else (HAL_ERROR, f)

/-- Flash_Read: an unconditional memcpy of size_bytes bytes out of
memory-mapped flash. -/
def Flash_Read (address size_bytes : Nat) (f : Flash) : List Nat :=
  (List.range size_bytes).map (fun i => f (address + i) % 256)

/-- One HAL_FLASH_Program of a doubleword: writes the given bytes at the
address (bs has length 8 at every call site). -/
def flashProgBytes (f : Flash) (addr : Nat) (bs : List Nat) : Flash :=
  fun a => if addr ≤ a ∧ a < addr + bs.length then bs.getD (a - addr) 0xFF % 256 else f a

/-- The full-chunk while-loop of Flash_Write: program n doublewords,
taking 8 source bytes per iteration. -/
def progChunks (f : Flash) (addr : Nat) (src : List Nat) : Nat → Flash
  | 0 => f
  | n + 1 => progChunks (flashProgBytes f addr (src.take 8)) (addr + 8) (src.drop 8) n

/-- Flash_Write: size 0 returns HAL_OK immediately; an address not
64-bit aligned is HAL_ERROR; otherwise program full 8-byte chunks and
one final chunk padded with 0xFF (the erased state) for a 1..7 byte
tail.  Both checks precede any flash mutation. -/
def Flash_Write (hw : Hw) (address : Nat) (src : List Nat) (size_bytes : Nat) (f : Flash) :
    HAL_StatusTypeDef × Flash :=
  if size_bytes = 0 then (HAL_OK, f)
  else if address % 8 ≠ 0 then (HAL_ERROR, f)
  else if hw.progOk then
    let full := size_bytes / 8
    let rem := size_bytes % 8
    let f1 := progChunks f address src full
    if rem = 0 then (HAL_OK, f1)
    else
      (HAL_OK, flashProgBytes f1 (address + 8 * full)
        ((src.drop (8 * full)).take rem ++ List.replicate (8 - rem) 0xFF))
  else (HAL_ERROR, f)

-- ------------------- Store state and operations (lifu_config.c) -------------------

/-- One call made into the flash primitive layer, with its arguments. -/
inductive FlashOp where
  | read (addr size_bytes : Nat)
  | erase (start_addr end_addr : Nat)
  | program (addr size_bytes : Nat)
deriving DecidableEq

/-- The store's process state: the cached g_cfg, the g_cfg_loaded flag,
and the flash contents behind the primitives. -/
structure Store where
  cfg : lifu_cfg_t
  loaded : Bool
  flash : Flash

/-- The static zero-initialized g_cfg at process start. -/
def lifu_cfg_zero : lifu_cfg_t :=
  { magic := 0, version := 0, seq := 0, hv_settng := 0, hv_enabled := 0,
    auto_on := 0, crc := 0, reserved := 0,
    json := List.replicate LIFU_CFG_JSON_MAX 0 }

/-- Process start: zeroed g_cfg, g_cfg_loaded false, given flash. -/
def initStore (f : Flash) : Store := { cfg := lifu_cfg_zero, loaded := false, flash := f }

/-- The cache transformation of lifu_cfg_writeback: bump seq (uint32),
normalize json, recompute crc.  This happens before any flash call. -/
def lifu_cfg_writeback_cfg (c : lifu_cfg_t) : lifu_cfg_t :=
  let c1 := { c with seq := (c.seq + 1) % 4294967296 }
  let c2 := lifu_cfg_normalize_json c1
  { c2 with crc := lifu_cfg_calc_crc c2 }

/-- lifu_cfg_writeback: update the cache, erase the config page, then
call Flash_Write with sizeof(lifu_cfg_t) / sizeof(uint32_t) = 512 as its
size_bytes argument, exactly as the C call does. -/
def lifu_cfg_writeback (hw : Hw) (s : Store) :
    HAL_StatusTypeDef × Store × List FlashOp :=
  let c3 := lifu_cfg_writeback_cfg s.cfg
  let er := Flash_Erase hw LIFU_CFG_PAGE_ADDR LIFU_CFG_PAGE_END s.flash
  if er.1 = HAL_OK then
    let wr := Flash_Write hw LIFU_CFG_PAGE_ADDR (lifu_cfg_bytes c3)
      (LIFU_CFG_PAGE_SIZE / 4) er.2
    (wr.1, { cfg := c3, loaded := s.loaded, flash := wr.2 },
      [FlashOp.erase LIFU_CFG_PAGE_ADDR LIFU_CFG_PAGE_END,
       FlashOp.program LIFU_CFG_PAGE_ADDR (LIFU_CFG_PAGE_SIZE / 4)])
  else
    (er.1, { cfg := c3, loaded := s.loaded, flash := er.2 },
      [FlashOp.erase LIFU_CFG_PAGE_ADDR LIFU_CFG_PAGE_END])

/-- Raw struct bytes read back into the record fields (the memcpy of
Flash_Read writing over the packed struct). -/
def decodeRecord (bs : List Nat) : lifu_cfg_t :=
  let byte := fun i => bs.getD i 0
  let rd16 := fun i => byte i + 256 * byte (i + 1)
  let rd32 := fun i => byte i + 256 * byte (i + 1) + 65536 * byte (i + 2) +
    16777216 * byte (i + 3)
  { magic := rd32 0, version := rd32 4, seq := rd32 8, hv_settng := rd16 12,
    hv_enabled := byte 14, auto_on := byte 15, crc := rd16 16,
    reserved := rd16 18, json := (bs.drop 20).take LIFU_CFG_JSON_MAX }

/-- lifu_cfg_load_raw: Flash_Read of sizeof(lifu_cfg_t) / sizeof(uint32_t)
= 512 bytes (the same word-count-as-byte-count argument as the write
path) into the front of g_cfg; the remaining struct bytes keep their
previous contents. -/
def lifu_cfg_load_raw (s : Store) : Store × List FlashOp :=
  let rd := Flash_Read LIFU_CFG_PAGE_ADDR (LIFU_CFG_PAGE_SIZE / 4) s.flash
  let bs := rd ++ (lifu_cfg_bytes s.cfg).drop (LIFU_CFG_PAGE_SIZE / 4)
  ({ s with cfg := decodeRecord bs },
   [FlashOp.read LIFU_CFG_PAGE_ADDR (LIFU_CFG_PAGE_SIZE / 4)])

/-- lifu_cfg_ensure_loaded: nothing if loaded; otherwise raw load, and
on validation failure regenerate defaults and write them back, ignoring
the write-back status; mark loaded in every path. -/
def lifu_cfg_ensure_loaded (hw : Hw) (s : Store) : Store × List FlashOp :=
  if s.loaded then (s, [])
  else
    let l := lifu_cfg_load_raw s
    if lifu_cfg_is_valid l.1.cfg then ({ l.1 with loaded := true }, l.2)
    else
      let wb := lifu_cfg_writeback hw { l.1 with cfg := lifu_cfg_make_defaults }
      ({ wb.2.1 with loaded := true }, l.2 ++ wb.2.2)

/-- lifu_cfg_get: ensure loaded, return the live record. -/
def lifu_cfg_get (hw : Hw) (s : Store) : lifu_cfg_t × Store × List FlashOp :=
  let e := lifu_cfg_ensure_loaded hw s
  (e.1.cfg, e.1, e.2)

/-- lifu_cfg_snapshot: HAL_ERROR if the destination pointer is NULL
(before any loading); else ensure loaded and copy the record out. -/
def lifu_cfg_snapshot (out_is_null : Bool) (hw : Hw) (s : Store) :
    HAL_StatusTypeDef × Option lifu_cfg_t × Store × List FlashOp :=
  if out_is_null then (HAL_ERROR, none, s, [])
  else
    let e := lifu_cfg_ensure_loaded hw s
    (HAL_OK, some e.1.cfg, e.1, e.2)

/-- The memcpy of LIFU_CFG_JSON_MAX bytes from the caller's json buffer;
a caller list shorter than the capacity is zero-extended. -/
def json_copy (j : List Nat) : List Nat :=
  j.take LIFU_CFG_JSON_MAX ++ List.replicate (LIFU_CFG_JSON_MAX - j.length) 0

/-- lifu_cfg_save: ensure loaded; force magic/version to the constants,
take hv_settng/hv_enabled/auto_on and the json from the candidate (the
json NUL-terminated at its last byte), keep the cached seq/crc/reserved,
then write back. -/
def lifu_cfg_save (new_cfg : lifu_cfg_t) (hw : Hw) (s : Store) :
    HAL_StatusTypeDef × Store × List FlashOp :=
  let e := lifu_cfg_ensure_loaded hw s
  let c := e.1.cfg
  let c := { c with
    magic := LIFU_MAGIC, version := LIFU_VER,
    hv_settng := new_cfg.hv_settng, hv_enabled := new_cfg.hv_enabled,
    auto_on := new_cfg.auto_on,
    json := (json_copy new_cfg.json).set (LIFU_CFG_JSON_MAX - 1) 0 }
  let wb := lifu_cfg_writeback hw { e.1 with cfg := c }
  (wb.1, wb.2.1, e.2 ++ wb.2.2)

/-- lifu_cfg_commit: ensure loaded, write the current cache back. -/
def lifu_cfg_commit (hw : Hw) (s : Store) :
    HAL_StatusTypeDef × Store × List FlashOp :=
  let e := lifu_cfg_ensure_loaded hw s
  let wb := lifu_cfg_writeback hw e.1
  (wb.1, wb.2.1, e.2 ++ wb.2.2)

/-- lifu_cfg_factory_reset: ensure loaded, regenerate defaults into the
cache, write back. -/
def lifu_cfg_factory_reset (hw : Hw) (s : Store) :
    HAL_StatusTypeDef × Store × List FlashOp :=
  let e := lifu_cfg_ensure_loaded hw s
  let wb := lifu_cfg_writeback hw { e.1 with cfg := lifu_cfg_make_defaults }
  (wb.1, wb.2.1, e.2 ++ wb.2.2)

-- ------------------- Operation sequences -------------------

/-- One public store call with its inputs. -/
inductive LifuOp where
  | get (hw : Hw)
  | snapshot (out_is_null : Bool) (hw : Hw)
  | save (cand : lifu_cfg_t) (hw : Hw)
  | commit (hw : Hw)
  | factoryReset (hw : Hw)

/-- State transition of one public call, outputs discarded. -/
def runOp (op : LifuOp) (s : Store) : Store :=
  match op with
  | LifuOp.get hw => (lifu_cfg_get hw s).2.1
  | LifuOp.snapshot b hw => (lifu_cfg_snapshot b hw s).2.2.1
  | LifuOp.save cand hw => (lifu_cfg_save cand hw s).2.1
  | LifuOp.commit hw => (lifu_cfg_commit hw s).2.1
  | LifuOp.factoryReset hw => (lifu_cfg_factory_reset hw s).2.1

/-- Run a sequence of public calls. -/
def runOps (ops : List LifuOp) (s : Store) : Store :=
  ops.foldl (fun s op => runOp op s) s

/-- Whether a public call reaches lifu_cfg_ensure_loaded (every call
does, except a snapshot handed a NULL destination, which returns before
loading). -/
def opEnsuresLoad : LifuOp → Bool
  | LifuOp.snapshot true _ => false
  | _ => true

/-- The store's internal consistency: a loaded cache validates, and the
cached json always has the full array capacity. -/
def StoreInv (s : Store) : Prop :=
  (s.loaded = true → lifu_cfg_is_valid s.cfg = true) ∧
    s.cfg.json.length = LIFU_CFG_JSON_MAX

/-- The effect of Flash_Erase over the config page range: page 127 (and
only it) goes to the erased 0xFF state. -/
def erasedConfigPage (f : Flash) : Flash :=
  fun a =>
    if FLASH_BASE + 127 * FLASH_PAGE_SIZE ≤ a ∧
        a < FLASH_BASE + (127 + 1) * FLASH_PAGE_SIZE then 0xFF
    else f a

-- ------------------- Concrete fixtures -------------------

/-- A hardware oracle on which erase and program both succeed. -/
def hwOK : Hw := { eraseOk := true, progOk := true }

/-- Fully erased flash, every byte 0xFF (blank-chip state). -/
def flashFF : Flash := fun _ => 0xFF

/-- A store whose cache already holds the freshly made defaults and is
marked loaded, over erased flash. -/
def loadedDefaultStore : Store :=
  { cfg := lifu_cfg_make_defaults, loaded := true, flash := flashFF }

/-- A save candidate with deliberately wrong magic, version, seq and crc,
and a json that has a non-NUL byte after an interior NUL. -/
def candInteriorNul : lifu_cfg_t :=
  { magic := 0, version := 0, seq := 999, hv_settng := 7, hv_enabled := 1,
    auto_on := 1, crc := 123, reserved := 9,
    json := [65, 0, 66] ++ List.replicate 2025 0 }

/-- The cache of the store after a save, the record a subsequent get
would return. -/
def save_result (cand : lifu_cfg_t) (hw : Hw) (s : Store) : lifu_cfg_t :=
  ((lifu_cfg_save cand hw s).2.1).cfg

-- ------------------- Helper lemmas -------------------

/-- The cache part of lifu_cfg_writeback is lifu_cfg_writeback_cfg of
the old cache, whatever the erase and program statuses are. -/
theorem writeback_store_cfg (hw : Hw) (s : Store) :
    ((lifu_cfg_writeback hw s).2.1).cfg = lifu_cfg_writeback_cfg s.cfg := by
  unfold lifu_cfg_writeback
  dsimp only
  split <;> rfl

/-- Write-back does not touch the loaded flag. -/
theorem writeback_store_loaded (hw : Hw) (s : Store) :
    ((lifu_cfg_writeback hw s).2.1).loaded = s.loaded := by
  unfold lifu_cfg_writeback
  dsimp only
  split <;> rfl

/-- Every branch of lifu_cfg_ensure_loaded marks the store loaded. -/
theorem ensure_loaded_sets_flag (hw : Hw) (s : Store) :
    ((lifu_cfg_ensure_loaded hw s).1).loaded = true := by
  by_cases h : s.loaded
  · simp [lifu_cfg_ensure_loaded, h]
  · by_cases hv : lifu_cfg_is_valid (lifu_cfg_load_raw s).1.cfg <;>
      simp [lifu_cfg_ensure_loaded, h, hv]

/-- On a loaded store, lifu_cfg_ensure_loaded is the identity and makes
no flash calls. -/
theorem ensure_loaded_on_loaded (hw : Hw) (s : Store) (h : s.loaded = true) :
    lifu_cfg_ensure_loaded hw s = (s, []) := by
  simp [lifu_cfg_ensure_loaded, h]

/-- The cache transformation of write-back bumps seq by one in uint32
arithmetic and leaves magic, version and the hv fields alone. -/
theorem writeback_cfg_fields (c : lifu_cfg_t) :
    (lifu_cfg_writeback_cfg c).seq = (c.seq + 1) % 4294967296 ∧
    (lifu_cfg_writeback_cfg c).magic = c.magic ∧
    (lifu_cfg_writeback_cfg c).version = c.version ∧
    (lifu_cfg_writeback_cfg c).hv_settng = c.hv_settng ∧
    (lifu_cfg_writeback_cfg c).hv_enabled = c.hv_enabled ∧
    (lifu_cfg_writeback_cfg c).auto_on = c.auto_on ∧
    (lifu_cfg_writeback_cfg c).json = json_normalize c.json ∧
    (lifu_cfg_writeback_cfg c).crc =
      lifu_cfg_calc_crc (lifu_cfg_writeback_cfg c) :=
  ⟨rfl, rfl, rfl, rfl, rfl, rfl, rfl, rfl⟩

-- ------------------- C7 -------------------

/-- C7: lifu_cfg_is_valid holds exactly when all four checks hold at
once: the magic constant, the version constant, a NUL byte somewhere in
the payload capacity, and the recomputed CRC matching the stored field;
any single failure makes the record invalid, with no distinction between
the causes. -/
theorem is_valid_iff_four_conditions (c : lifu_cfg_t) :
    lifu_cfg_is_valid c = true ↔
      (c.magic = LIFU_MAGIC ∧ c.version = LIFU_VER ∧
        (0 : Nat) ∈ c.json.take LIFU_CFG_JSON_MAX ∧
        lifu_cfg_calc_crc c = c.crc) := by
  simp [lifu_cfg_is_valid, and_assoc]

-- ------------------- C8 -------------------

/-- C8: a second lifu_cfg_get right after a first one returns the same
record bitwise, leaves the store state untouched, and performs no flash
read, erase or program call. -/
theorem get_idempotent_no_flash_ops (s : Store) (hw hw2 : Hw) :
    (lifu_cfg_get hw2 (lifu_cfg_get hw s).2.1).1 = (lifu_cfg_get hw s).1 ∧
    (lifu_cfg_get hw2 (lifu_cfg_get hw s).2.1).2.1 = (lifu_cfg_get hw s).2.1 ∧
    (lifu_cfg_get hw2 (lifu_cfg_get hw s).2.1).2.2 = [] := by
  have h : ((lifu_cfg_ensure_loaded hw s).1).loaded = true :=
    ensure_loaded_sets_flag hw s
  simp [lifu_cfg_get, ensure_loaded_on_loaded hw2 _ h]

-- ------------------- C9 -------------------

/-- C9: lifu_cfg_snapshot fails with HAL_ERROR exactly when the
destination pointer is NULL, in which case nothing else happens; with a
real destination it ensures the record is loaded, copies the full cached
record out, and returns HAL_OK. -/
theorem snapshot_null_iff_error (hw : Hw) (s : Store) :
    (∀ b : Bool, (lifu_cfg_snapshot b hw s).1 = HAL_ERROR ↔ b = true) ∧
    lifu_cfg_snapshot true hw s = (HAL_ERROR, none, s, []) ∧
    (lifu_cfg_snapshot false hw s).1 = HAL_OK ∧
    (lifu_cfg_snapshot false hw s).2.1 =
      some ((lifu_cfg_ensure_loaded hw s).1.cfg) ∧
    (lifu_cfg_snapshot false hw s).2.2.1 = (lifu_cfg_ensure_loaded hw s).1 := by
  refine ⟨fun b => ?_, rfl, rfl, rfl, rfl⟩
  cases b <;> simp [lifu_cfg_snapshot]

-- ------------------- C1 -------------------

/-- The crc-covered region has length 16 (the header fields). -/
theorem crc_region_length (c : lifu_cfg_t) : (lifu_cfg_crc_region c).length = 16 := by
  simp [lifu_cfg_crc_region, le32, le16]

/-- C1 counterexample: lifu_cfg_make_defaults is a record written by the
store and validates; changing its payload byte at index 5 from 0 to 65
yields a different payload that still validates with the same stored
crc, so the CRC does not cover the payload and a payload change does not
change whether the record validates. -/
theorem crc_ignores_payload_cex :
    lifu_cfg_is_valid lifu_cfg_make_defaults = true ∧
    lifu_cfg_is_valid
      { lifu_cfg_make_defaults with
        json := (List.replicate LIFU_CFG_JSON_MAX 0).set 5 65 } = true ∧
    ({ lifu_cfg_make_defaults with
        json := (List.replicate LIFU_CFG_JSON_MAX 0).set 5 65 } :
      lifu_cfg_t).json ≠ lifu_cfg_make_defaults.json ∧
    ({ lifu_cfg_make_defaults with
        json := (List.replicate LIFU_CFG_JSON_MAX 0).set 5 65 } :
      lifu_cfg_t).crc = lifu_cfg_make_defaults.crc := by
  refine ⟨by decide, by decide, by decide, rfl⟩

/-- C1 amended: every record the store writes carries a crc equal to the
CRC16/CCITT-FALSE of the 16 header bytes that precede the crc field
(magic, version, seq, hv_settng, hv_enabled, auto_on) — not of the
payload: the computed CRC is unchanged under any payload replacement. -/
theorem crc_covers_header_not_payload :
    (∀ (hw : Hw) (s : Store),
      ((lifu_cfg_writeback hw s).2.1).cfg.crc =
        lifu_cfg_calc_crc ((lifu_cfg_writeback hw s).2.1).cfg) ∧
    lifu_cfg_make_defaults.crc = lifu_cfg_calc_crc lifu_cfg_make_defaults ∧
    (∀ (c : lifu_cfg_t) (j : List Nat),
      lifu_cfg_calc_crc { c with json := j } = lifu_cfg_calc_crc c) ∧
    (∀ c : lifu_cfg_t,
      lifu_cfg_calc_crc c = crc16_ccitt ((lifu_cfg_bytes c).take 16)) := by
  refine ⟨fun hw s => ?_, rfl, fun c j => rfl, fun c => ?_⟩
  · rw [writeback_store_cfg]
    rfl
  · unfold lifu_cfg_calc_crc lifu_cfg_bytes
    rw [List.append_assoc, List.append_assoc,
      List.take_left' (crc_region_length c)]

-- ------------------- C5 -------------------

/-- C5 counterexample: Flash_Write at the misaligned address 1 with size
0 returns HAL_OK (the size check precedes the alignment check), not the
HAL_ERROR the claim requires for every size including zero. -/
theorem flash_write_zero_size_cex :
    Flash_Write hwOK 1 [] 0 flashFF = (HAL_OK, flashFF) ∧
    (HAL_OK : HAL_StatusTypeDef) ≠ HAL_ERROR := by
  exact ⟨rfl, by decide⟩

/-- C5 amended: a Flash_Write at an address that is not a multiple of
the 8-byte program granularity fails with HAL_ERROR and leaves flash
untouched for every nonzero size, but a zero-size request returns HAL_OK
(also without touching flash) because the size check comes first. -/
theorem flash_write_misaligned (hw : Hw) (address size_bytes : Nat)
    (src : List Nat) (f : Flash) (h : address % 8 ≠ 0) :
    (size_bytes ≠ 0 → Flash_Write hw address src size_bytes f = (HAL_ERROR, f)) ∧
    Flash_Write hw address src 0 f = (HAL_OK, f) := by
  refine ⟨fun hn => ?_, rfl⟩
  simp [Flash_Write, hn, h]

/-- Witness for flash_write_misaligned at address 1, size 8. -/
theorem flash_write_misaligned_witness :
    (1 : Nat) % 8 ≠ 0 ∧ Flash_Write hwOK 1 [1] 8 flashFF = (HAL_ERROR, flashFF) :=
  ⟨by decide, (flash_write_misaligned hwOK 1 8 [1] flashFF (by decide)).1 (by decide)⟩

-- ------------------- C3 -------------------

/-- C3 counterexample: from a loaded default store, a successful commit
brings seq to 1, and a successful factory reset right after brings seq
back to 1 instead of 2 — the counter regenerated by make_defaults does
not continue from the previous value, so seq does not increase by
exactly 1 on every successful call. -/
theorem factory_reset_seq_cex :
    (lifu_cfg_commit hwOK loadedDefaultStore).1 = HAL_OK ∧
    ((lifu_cfg_commit hwOK loadedDefaultStore).2.1).cfg.seq = 1 ∧
    (lifu_cfg_factory_reset hwOK
      ((lifu_cfg_commit hwOK loadedDefaultStore).2.1)).1 = HAL_OK ∧
    ((lifu_cfg_factory_reset hwOK
      ((lifu_cfg_commit hwOK loadedDefaultStore).2.1)).2.1).cfg.seq = 1 ∧
    ((lifu_cfg_factory_reset hwOK
      ((lifu_cfg_commit hwOK loadedDefaultStore).2.1)).2.1).cfg.seq ≠
      ((lifu_cfg_commit hwOK loadedDefaultStore).2.1).cfg.seq + 1 := by
  refine ⟨by decide, by decide, by decide, by decide, by decide⟩

/-- C3 amended: on a loaded store, save and commit set seq to the
previous cached seq plus 1 in uint32 arithmetic, but factory reset
always leaves seq at 1 (defaults regenerate it as 0 and the write-back
bump makes it 1), whatever it was before; across mixtures containing
factory reset the counter is not strictly increasing. -/
theorem seq_per_operation (s : Store) (hw : Hw) (cand : lifu_cfg_t)
    (h : s.loaded = true) :
    ((lifu_cfg_save cand hw s).2.1).cfg.seq = (s.cfg.seq + 1) % 4294967296 ∧
    ((lifu_cfg_commit hw s).2.1).cfg.seq = (s.cfg.seq + 1) % 4294967296 ∧
    ((lifu_cfg_factory_reset hw s).2.1).cfg.seq = 1 := by
  have he := ensure_loaded_on_loaded hw s h
  refine ⟨?_, ?_, ?_⟩
  · simp only [lifu_cfg_save, he, writeback_store_cfg]
    rfl
  · simp only [lifu_cfg_commit, he, writeback_store_cfg]
    rfl
  · simp only [lifu_cfg_factory_reset, he, writeback_store_cfg]
    rfl

/-- Witness for seq_per_operation on the loaded default store. -/
theorem seq_per_operation_witness :
    loadedDefaultStore.loaded = true ∧
    ((lifu_cfg_commit hwOK loadedDefaultStore).2.1).cfg.seq =
      (loadedDefaultStore.cfg.seq + 1) % 4294967296 :=
  ⟨rfl, (seq_per_operation loadedDefaultStore hwOK lifu_cfg_zero rfl).2.1⟩

-- ------------------- C6 -------------------

/-- C6 counterexample: the candidate candInteriorNul already ends in a
NUL and carries byte 66 at payload index 2, after an interior NUL at
index 1; a successful save stores 0 there instead of 66, because the
write-back normalization zero-fills everything after the first NUL, so
the payload is not kept verbatim-with-terminator. -/
theorem save_payload_not_verbatim_cex :
    (lifu_cfg_save candInteriorNul hwOK loadedDefaultStore).1 = HAL_OK ∧
    candInteriorNul.json.getD (LIFU_CFG_JSON_MAX - 1) 7 = 0 ∧
    candInteriorNul.json.getD 2 7 = 66 ∧
    (save_result candInteriorNul hwOK loadedDefaultStore).json.getD 2 7 = 0 := by
  refine ⟨by decide, by decide, by decide, by decide⟩

/-- C6 amended: a save from a loaded store regenerates magic and version
to the constants and sets seq to the previous cached seq plus 1 (uint32),
takes hv_settng, hv_enabled and auto_on verbatim from the candidate, and
stores the candidate payload copied in full, NUL-terminated at its last
byte, and then normalized by the write-back, which zero-fills every byte
after the first NUL. -/
theorem save_regenerates_header_fields (s : Store) (hw : Hw)
    (cand : lifu_cfg_t) (h : s.loaded = true) :
    (save_result cand hw s).magic = LIFU_MAGIC ∧
    (save_result cand hw s).version = LIFU_VER ∧
    (save_result cand hw s).seq = (s.cfg.seq + 1) % 4294967296 ∧
    (save_result cand hw s).hv_settng = cand.hv_settng ∧
    (save_result cand hw s).hv_enabled = cand.hv_enabled ∧
    (save_result cand hw s).auto_on = cand.auto_on ∧
    (save_result cand hw s).json =
      json_normalize ((json_copy cand.json).set (LIFU_CFG_JSON_MAX - 1) 0) := by
  have he := ensure_loaded_on_loaded hw s h
  simp only [save_result, lifu_cfg_save, he, writeback_store_cfg]
  exact ⟨rfl, rfl, rfl, rfl, rfl, rfl, rfl⟩

/-- Witness for save_regenerates_header_fields on the loaded default
store with the candInteriorNul candidate. -/
theorem save_regenerates_header_fields_witness :
    loadedDefaultStore.loaded = true ∧
    (save_result candInteriorNul hwOK loadedDefaultStore).hv_settng =
      candInteriorNul.hv_settng ∧
    (save_result candInteriorNul hwOK loadedDefaultStore).magic = LIFU_MAGIC :=
  ⟨rfl,
   (save_regenerates_header_fields loadedDefaultStore hwOK candInteriorNul
     rfl).2.2.2.1,
   (save_regenerates_header_fields loadedDefaultStore hwOK candInteriorNul
     rfl).1⟩

-- ------------------- Structural lemmas -------------------

/-- The struct image is the 20 header bytes followed by the json. -/
theorem lifu_cfg_bytes_length (c : lifu_cfg_t) :
    (lifu_cfg_bytes c).length = 20 + c.json.length := by
  simp [lifu_cfg_bytes, lifu_cfg_crc_region, le32, le16]
  omega

/-- Normalizing a full-capacity json keeps the capacity. -/
theorem json_normalize_length (j : List Nat) (h : j.length = LIFU_CFG_JSON_MAX) :
    (json_normalize j).length = LIFU_CFG_JSON_MAX := by
  simp only [json_normalize]
  split
  · rename_i hc
    simp only [List.length_append, List.length_take, List.length_replicate,
      List.length_set, h]
    simp only [LIFU_CFG_JSON_MAX] at hc ⊢
    omega
  · simp [h]

/-- Normalizing a full-capacity json leaves a NUL in it. -/
theorem json_normalize_has_nul (j : List Nat)
    (h : j.length = LIFU_CFG_JSON_MAX) : (0 : Nat) ∈ json_normalize j := by
  simp only [json_normalize]
  split
  · rename_i hc
    refine List.mem_append.mpr (Or.inr (List.mem_replicate.mpr ⟨?_, rfl⟩))
    simp only [LIFU_CFG_JSON_MAX] at hc ⊢
    omega
  · rename_i hc
    have hlt : LIFU_CFG_JSON_MAX - 1 <
        (j.set (LIFU_CFG_JSON_MAX - 1) 0).length := by
      rw [List.length_set, h]
      decide
    have hv := List.getElem_set_self (l := j) (i := LIFU_CFG_JSON_MAX - 1)
      (a := 0) hlt
    have hmem := List.getElem_mem hlt
    rw [hv] at hmem
    exact hmem

/-- The json stored by save has the full array capacity for every
candidate list. -/
theorem json_copy_set_length (j : List Nat) :
    ((json_copy j).set (LIFU_CFG_JSON_MAX - 1) 0).length = LIFU_CFG_JSON_MAX := by
  simp only [json_copy, List.length_set, List.length_append, List.length_take,
    List.length_replicate]
  omega

/-- The record produced by the write-back cache transformation is valid
whenever the input carried the right magic and version and a
full-capacity json: write-back recomputes crc over what it stores and
normalization guarantees the NUL. -/
theorem writeback_cfg_valid (c : lifu_cfg_t) (h1 : c.magic = LIFU_MAGIC)
    (h2 : c.version = LIFU_VER) (h3 : c.json.length = LIFU_CFG_JSON_MAX) :
    lifu_cfg_is_valid (lifu_cfg_writeback_cfg c) = true := by
  obtain ⟨-, hm, hv, -, -, -, hj, hcrc⟩ := writeback_cfg_fields c
  have hlen : (lifu_cfg_writeback_cfg c).json.length = LIFU_CFG_JSON_MAX := by
    rw [hj]; exact json_normalize_length c.json h3
  have hnul : (0 : Nat) ∈ (lifu_cfg_writeback_cfg c).json := by
    rw [hj]; exact json_normalize_has_nul c.json h3
  simp only [lifu_cfg_is_valid, Bool.and_eq_true, beq_iff_eq]
  refine ⟨⟨⟨?_, ?_⟩, ?_⟩, hcrc.symm⟩
  · rw [hm, h1]
  · rw [hv, h2]
  · rw [List.take_of_length_le (le_of_eq hlen)]
    exact List.any_eq_true.mpr ⟨0, hnul, by simp⟩

/-- A valid record carries the expected magic and version. -/
theorem is_valid_header_fields (c : lifu_cfg_t)
    (h : lifu_cfg_is_valid c = true) :
    c.magic = LIFU_MAGIC ∧ c.version = LIFU_VER := by
  simp only [lifu_cfg_is_valid, Bool.and_eq_true, beq_iff_eq] at h
  exact ⟨h.1.1.1, h.1.1.2⟩

/-- The raw load always produces a full-capacity json, given the cache
it partially overwrites had one. -/
theorem load_raw_json_length (s : Store)
    (h : s.cfg.json.length = LIFU_CFG_JSON_MAX) :
    ((lifu_cfg_load_raw s).1).cfg.json.length = LIFU_CFG_JSON_MAX := by
  simp only [lifu_cfg_load_raw, decodeRecord, Flash_Read]
  simp only [List.length_take, List.length_drop, List.length_append,
    List.length_map, List.length_range, lifu_cfg_bytes_length, h]
  simp only [LIFU_CFG_JSON_MAX, LIFU_CFG_PAGE_SIZE]
  decide

/-- A lookup below the programmed range falls through all chunks. -/
theorem progChunks_lookup_before (n : Nat) (f : Flash) (addr : Nat)
    (src : List Nat) (a : Nat) (h : a < addr) :
    progChunks f addr src n a = f a := by
  induction n generalizing f addr src with
  | zero => rfl
  | succ n ih =>
    show progChunks (flashProgBytes f addr (src.take 8)) (addr + 8)
      (src.drop 8) n a = f a
    rw [ih _ _ _ (by omega)]
    simp only [flashProgBytes]
    rw [if_neg (by omega)]

/-- A lookup inside the programmed range returns the source byte. -/
theorem progChunks_lookup_in (n : Nat) (f : Flash) (addr : Nat)
    (src : List Nat) (a : Nat) (h1 : addr ≤ a) (h2 : a < addr + 8 * n)
    (h3 : 8 * n ≤ src.length) :
    progChunks f addr src n a = src.getD (a - addr) 0xFF % 256 := by
  induction n generalizing f addr src with
  | zero => omega
  | succ n ih =>
    show progChunks (flashProgBytes f addr (src.take 8)) (addr + 8)
      (src.drop 8) n a = _
    by_cases hc : addr + 8 ≤ a
    · rw [ih _ _ _ hc (by omega) (by simp only [List.length_drop]; omega)]
      have hgd : (src.drop 8).getD (a - (addr + 8)) 0xFF =
          src.getD (a - addr) 0xFF := by
        rw [List.getD_eq_getElem?_getD, List.getD_eq_getElem?_getD,
          List.getElem?_drop]
        have hidx : 8 + (a - (addr + 8)) = a - addr := by omega
        rw [hidx]
      rw [hgd]
    · rw [progChunks_lookup_before n _ _ _ _ (by omega)]
      simp only [flashProgBytes]
      have hlen8 : (src.take 8).length = 8 := by
        rw [List.length_take]
        omega
      rw [if_pos ⟨h1, by rw [hlen8]; omega⟩]
      have hgd : (src.take 8).getD (a - addr) 0xFF =
          src.getD (a - addr) 0xFF := by
        rw [List.getD_eq_getElem?_getD, List.getD_eq_getElem?_getD,
          List.getElem?_take_of_lt (by omega)]
      rw [hgd]

/-- Flash_Erase over the config page range erases exactly page 127. -/
theorem erase_config_page (hw : Hw) (f : Flash) (hE : hw.eraseOk = true) :
    Flash_Erase hw LIFU_CFG_PAGE_ADDR LIFU_CFG_PAGE_END f =
      (HAL_OK, erasedConfigPage f) := by
  have h1 : GetPage LIFU_CFG_PAGE_ADDR = 127 := by decide
  have h2 : GetPage (LIFU_CFG_PAGE_END - 1) = 127 := by decide
  simp only [Flash_Erase, hE, if_true]
  rw [if_neg (show ¬(LIFU_CFG_PAGE_END ≤ LIFU_CFG_PAGE_ADDR) by decide)]
  simp only [h1, h2]
  rfl

/-- Flash_Write of the write-back call site: 512 as size_bytes means 64
programmed doublewords. -/
theorem flash_write_page (hw : Hw) (src : List Nat) (f : Flash)
    (hP : hw.progOk = true) :
    Flash_Write hw LIFU_CFG_PAGE_ADDR src (LIFU_CFG_PAGE_SIZE / 4) f =
      (HAL_OK, progChunks f LIFU_CFG_PAGE_ADDR src 64) := by
  simp only [Flash_Write, hP, if_true]
  rw [if_neg (show ¬(LIFU_CFG_PAGE_SIZE / 4 = 0) by decide)]
  rw [if_neg (show ¬(LIFU_CFG_PAGE_ADDR % 8 ≠ 0) by decide)]
  rw [if_pos (show LIFU_CFG_PAGE_SIZE / 4 % 8 = 0 by decide)]
  rw [show LIFU_CFG_PAGE_SIZE / 4 / 8 = 64 from by decide]

/-- The defaults carry a full-capacity json. -/
theorem defaults_json_length :
    lifu_cfg_make_defaults.json.length = LIFU_CFG_JSON_MAX :=
  json_normalize_length (List.replicate LIFU_CFG_JSON_MAX 0) (by simp)

/-- A commit on the loaded default store caches exactly the write-back
transformation of the defaults. -/
theorem commit_cfg_on_default :
    ((lifu_cfg_commit hwOK loadedDefaultStore).2.1).cfg =
      lifu_cfg_writeback_cfg lifu_cfg_make_defaults := by
  simp only [lifu_cfg_commit,
    ensure_loaded_on_loaded hwOK loadedDefaultStore rfl]
  exact writeback_store_cfg hwOK loadedDefaultStore

-- ------------------- C2 -------------------

/-- C2: write-back passes sizeof(lifu_cfg_t) / sizeof(uint32_t) = 512 to
the size_bytes parameter of Flash_Write, so a successful commit programs
only the first 512 of the 2048 record bytes: here the page byte at
offset 1000 stays erased at 0xFF while the cached record's byte at
offset 1000 is 0, contradicting the code's own comment that the entire
struct is programmed. -/
theorem writeback_underrun_bug :
    (lifu_cfg_commit hwOK loadedDefaultStore).1 = HAL_OK ∧
    (lifu_cfg_commit hwOK loadedDefaultStore).2.2 =
      [FlashOp.erase LIFU_CFG_PAGE_ADDR LIFU_CFG_PAGE_END,
       FlashOp.program LIFU_CFG_PAGE_ADDR 512] ∧
    (512 : Nat) ≠ LIFU_CFG_PAGE_SIZE ∧
    (lifu_cfg_bytes ((lifu_cfg_commit hwOK loadedDefaultStore).2.1).cfg).length
      = LIFU_CFG_PAGE_SIZE ∧
    ((lifu_cfg_commit hwOK loadedDefaultStore).2.1).flash
      (LIFU_CFG_PAGE_ADDR + 1000) = 0xFF ∧
    (lifu_cfg_bytes ((lifu_cfg_commit hwOK loadedDefaultStore).2.1).cfg).getD
      1000 0xFF = 0 := by
  refine ⟨by decide, by decide, by decide, ?_, by decide, by decide⟩
  rw [commit_cfg_on_default, lifu_cfg_bytes_length]
  rw [show (lifu_cfg_writeback_cfg lifu_cfg_make_defaults).json =
    json_normalize lifu_cfg_make_defaults.json from rfl]
  rw [json_normalize_length _ defaults_json_length]
  decide

/-- An unloaded store whose flash fails validation recovers by caching
the write-back transformation of fresh defaults. -/
theorem ensure_loaded_recovers (hw : Hw) (s : Store) (h0 : s.loaded = false)
    (hbad : lifu_cfg_is_valid ((lifu_cfg_load_raw s).1).cfg = false) :
    ((lifu_cfg_ensure_loaded hw s).1).cfg =
      lifu_cfg_writeback_cfg lifu_cfg_make_defaults ∧
    ((lifu_cfg_ensure_loaded hw s).1).loaded = true ∧
    ((lifu_cfg_ensure_loaded hw s).1).flash =
      ((lifu_cfg_writeback hw
        { (lifu_cfg_load_raw s).1 with
          cfg := lifu_cfg_make_defaults }).2.1).flash := by
  simp only [lifu_cfg_ensure_loaded, h0, hbad, Bool.false_eq_true, if_false]
  exact ⟨writeback_store_cfg hw _, trivial, trivial⟩

/-- The record returned by a first get over invalid flash. -/
theorem recovery_cache (f0 : Flash) (hw : Hw)
    (hbad : lifu_cfg_is_valid ((lifu_cfg_load_raw (initStore f0)).1).cfg = false) :
    (lifu_cfg_get hw (initStore f0)).1 =
      lifu_cfg_writeback_cfg lifu_cfg_make_defaults := by
  show ((lifu_cfg_ensure_loaded hw (initStore f0)).1).cfg = _
  exact (ensure_loaded_recovers hw (initStore f0) rfl hbad).1

/-- The flash left behind by a first get over invalid flash: page
erased, then the first 64 doublewords of the default record programmed. -/
theorem recovery_flash (f0 : Flash) (hw : Hw) (hE : hw.eraseOk = true)
    (hP : hw.progOk = true)
    (hbad : lifu_cfg_is_valid ((lifu_cfg_load_raw (initStore f0)).1).cfg = false) :
    ((lifu_cfg_get hw (initStore f0)).2.1).flash =
      progChunks (erasedConfigPage f0) LIFU_CFG_PAGE_ADDR
        (lifu_cfg_bytes (lifu_cfg_writeback_cfg lifu_cfg_make_defaults)) 64 := by
  have hrec := ensure_loaded_recovers hw (initStore f0) rfl hbad
  show ((lifu_cfg_ensure_loaded hw (initStore f0)).1).flash = _
  rw [hrec.2.2]
  simp only [lifu_cfg_writeback, lifu_cfg_load_raw, initStore]
  rw [erase_config_page hw f0 hE]
  rw [flash_write_page hw _ _ hP]
  simp

/-- The written default image fills the whole page in RAM. -/
theorem recovery_bytes_length :
    (lifu_cfg_bytes (lifu_cfg_writeback_cfg lifu_cfg_make_defaults)).length =
      2048 := by
  rw [lifu_cfg_bytes_length]
  rw [show (lifu_cfg_writeback_cfg lifu_cfg_make_defaults).json =
    json_normalize lifu_cfg_make_defaults.json from rfl]
  rw [json_normalize_length _ defaults_json_length]
  decide

/-- Reading the raw-load window back after recovery returns the first
512 bytes of the written default image. -/
theorem recovery_read (f0 : Flash) (hw : Hw) (hE : hw.eraseOk = true)
    (hP : hw.progOk = true)
    (hbad : lifu_cfg_is_valid ((lifu_cfg_load_raw (initStore f0)).1).cfg = false) :
    Flash_Read LIFU_CFG_PAGE_ADDR (LIFU_CFG_PAGE_SIZE / 4)
      ((lifu_cfg_get hw (initStore f0)).2.1).flash =
    (List.range 512).map (fun i =>
      (lifu_cfg_bytes (lifu_cfg_writeback_cfg lifu_cfg_make_defaults)).getD
        i 0xFF % 256) := by
  rw [recovery_flash f0 hw hE hP hbad]
  show (List.range (LIFU_CFG_PAGE_SIZE / 4)).map _ = _
  rw [show LIFU_CFG_PAGE_SIZE / 4 = 512 from by decide]
  apply List.map_congr_left
  intro i hi
  rw [List.mem_range] at hi
  rw [progChunks_lookup_in 64 _ _ _ _ (Nat.le_add_right _ _) (by omega)
    (by rw [recovery_bytes_length]; decide)]
  rw [Nat.add_sub_cancel_left, Nat.mod_mod]

-- ------------------- C4 -------------------

/-- C4 counterexample: fully erased flash fails validation, and the
first get then returns a record whose seq is 1, not the 0 the claim
requires for freshly generated defaults. -/
theorem first_get_seq_not_zero_cex :
    lifu_cfg_is_valid ((lifu_cfg_load_raw (initStore flashFF)).1).cfg = false ∧
    (lifu_cfg_get hwOK (initStore flashFF)).1.seq = 1 ∧
    (lifu_cfg_get hwOK (initStore flashFF)).1.seq ≠ 0 := by
  refine ⟨by decide, by decide, by decide⟩

/-- C4 amended: when the flash record fails validation on first access
and the hardware accepts the erase and program, the first get returns,
with no error surfaced, the write-back transformation of fresh defaults
— the defaults except that seq was bumped to 1 and crc recomputed, with
the same empty payload — that record validates, and the flash page left
behind (the first 512 bytes of the default image over an erased page)
still loads as a record satisfying the validity predicate on the next
boot. -/
theorem get_corruption_recovery (f0 : Flash) (hw : Hw)
    (hE : hw.eraseOk = true) (hP : hw.progOk = true)
    (hbad : lifu_cfg_is_valid ((lifu_cfg_load_raw (initStore f0)).1).cfg = false) :
    (lifu_cfg_get hw (initStore f0)).1 =
      lifu_cfg_writeback_cfg lifu_cfg_make_defaults ∧
    (lifu_cfg_get hw (initStore f0)).1.seq = 1 ∧
    (lifu_cfg_get hw (initStore f0)).1.json = lifu_cfg_make_defaults.json ∧
    lifu_cfg_is_valid (lifu_cfg_get hw (initStore f0)).1 = true ∧
    lifu_cfg_is_valid
      ((lifu_cfg_load_raw
        (initStore ((lifu_cfg_get hw (initStore f0)).2.1).flash)).1).cfg =
      true := by
  refine ⟨recovery_cache f0 hw hbad, ?_, ?_, ?_, ?_⟩
  · rw [recovery_cache f0 hw hbad]; decide
  · rw [recovery_cache f0 hw hbad]; rfl
  · rw [recovery_cache f0 hw hbad]
    exact writeback_cfg_valid _ rfl rfl defaults_json_length
  · show lifu_cfg_is_valid (decodeRecord
      (Flash_Read LIFU_CFG_PAGE_ADDR (LIFU_CFG_PAGE_SIZE / 4)
          ((lifu_cfg_get hw (initStore f0)).2.1).flash ++
        (lifu_cfg_bytes lifu_cfg_zero).drop (LIFU_CFG_PAGE_SIZE / 4))) = true
    rw [recovery_read f0 hw hE hP hbad]
    decide

/-- Witness for get_corruption_recovery on fully erased flash. -/
theorem get_corruption_recovery_witness :
    lifu_cfg_is_valid ((lifu_cfg_load_raw (initStore flashFF)).1).cfg = false ∧
    lifu_cfg_is_valid (lifu_cfg_get hwOK (initStore flashFF)).1 = true :=
  ⟨by decide,
   (get_corruption_recovery flashFF hwOK rfl rfl (by decide)).2.2.2.1⟩

/-- The cache transformation normalizes the json. -/
theorem writeback_cfg_json (c : lifu_cfg_t) :
    (lifu_cfg_writeback_cfg c).json = json_normalize c.json := rfl

/-- The cache after save: write-back of the merged record. -/
theorem save_store_cfg (cand : lifu_cfg_t) (hw : Hw) (s : Store) :
    ((lifu_cfg_save cand hw s).2.1).cfg =
      lifu_cfg_writeback_cfg
        { ((lifu_cfg_ensure_loaded hw s).1).cfg with
          magic := LIFU_MAGIC, version := LIFU_VER,
          hv_settng := cand.hv_settng, hv_enabled := cand.hv_enabled,
          auto_on := cand.auto_on,
          json := (json_copy cand.json).set (LIFU_CFG_JSON_MAX - 1) 0 } := by
  simp only [lifu_cfg_save]
  exact writeback_store_cfg hw _

/-- The cache after commit: write-back of the loaded cache. -/
theorem commit_store_cfg (hw : Hw) (s : Store) :
    ((lifu_cfg_commit hw s).2.1).cfg =
      lifu_cfg_writeback_cfg ((lifu_cfg_ensure_loaded hw s).1).cfg := by
  simp only [lifu_cfg_commit]
  exact writeback_store_cfg hw _

/-- The cache after factory reset: write-back of fresh defaults. -/
theorem factory_store_cfg (hw : Hw) (s : Store) :
    ((lifu_cfg_factory_reset hw s).2.1).cfg =
      lifu_cfg_writeback_cfg lifu_cfg_make_defaults := by
  simp only [lifu_cfg_factory_reset]
  exact writeback_store_cfg hw _

/-- save keeps the loaded flag ensure_loaded produced. -/
theorem save_store_loaded (cand : lifu_cfg_t) (hw : Hw) (s : Store) :
    ((lifu_cfg_save cand hw s).2.1).loaded =
      ((lifu_cfg_ensure_loaded hw s).1).loaded := by
  simp only [lifu_cfg_save]
  exact writeback_store_loaded hw _

/-- commit keeps the loaded flag ensure_loaded produced. -/
theorem commit_store_loaded (hw : Hw) (s : Store) :
    ((lifu_cfg_commit hw s).2.1).loaded =
      ((lifu_cfg_ensure_loaded hw s).1).loaded := by
  simp only [lifu_cfg_commit]
  exact writeback_store_loaded hw _

/-- factory reset keeps the loaded flag ensure_loaded produced. -/
theorem factory_store_loaded (hw : Hw) (s : Store) :
    ((lifu_cfg_factory_reset hw s).2.1).loaded =
      ((lifu_cfg_ensure_loaded hw s).1).loaded := by
  simp only [lifu_cfg_factory_reset]
  exact writeback_store_loaded hw _

/-- After ensure_loaded on a consistent store the cache is loaded,
valid, and of full capacity, whichever branch ran. -/
theorem ensure_loaded_inv (hw : Hw) (s : Store) (h : StoreInv s) :
    ((lifu_cfg_ensure_loaded hw s).1).loaded = true ∧
    lifu_cfg_is_valid ((lifu_cfg_ensure_loaded hw s).1).cfg = true ∧
    ((lifu_cfg_ensure_loaded hw s).1).cfg.json.length = LIFU_CFG_JSON_MAX := by
  cases hb : s.loaded with
  | true =>
    rw [ensure_loaded_on_loaded hw s hb]
    exact ⟨hb, h.1 hb, h.2⟩
  | false =>
    by_cases hv : lifu_cfg_is_valid ((lifu_cfg_load_raw s).1).cfg = true
    · have hens : lifu_cfg_ensure_loaded hw s =
          ({ (lifu_cfg_load_raw s).1 with loaded := true },
           (lifu_cfg_load_raw s).2) := by
        simp [lifu_cfg_ensure_loaded, hb, hv]
      rw [hens]
      exact ⟨rfl, hv, load_raw_json_length s h.2⟩
    · have hbad : lifu_cfg_is_valid ((lifu_cfg_load_raw s).1).cfg = false := by
        revert hv
        cases lifu_cfg_is_valid ((lifu_cfg_load_raw s).1).cfg <;> simp
      obtain ⟨hc, hld, -⟩ := ensure_loaded_recovers hw s hb hbad
      refine ⟨hld, ?_, ?_⟩
      · rw [hc]
        exact writeback_cfg_valid _ rfl rfl defaults_json_length
      · rw [hc, writeback_cfg_json]
        exact json_normalize_length _ defaults_json_length

/-- Every public operation preserves store consistency. -/
theorem runOp_preserves_inv (op : LifuOp) (s : Store) (h : StoreInv s) :
    StoreInv (runOp op s) := by
  cases op with
  | get hw =>
    obtain ⟨hl, hv, hlen⟩ := ensure_loaded_inv hw s h
    exact ⟨fun _ => hv, hlen⟩
  | snapshot b hw =>
    cases b with
    | true => exact h
    | false =>
      obtain ⟨hl, hv, hlen⟩ := ensure_loaded_inv hw s h
      exact ⟨fun _ => hv, hlen⟩
  | save cand hw =>
    constructor
    · intro _
      show lifu_cfg_is_valid ((lifu_cfg_save cand hw s).2.1).cfg = true
      rw [save_store_cfg]
      exact writeback_cfg_valid _ rfl rfl (json_copy_set_length _)
    · show ((lifu_cfg_save cand hw s).2.1).cfg.json.length = _
      rw [save_store_cfg, writeback_cfg_json]
      exact json_normalize_length _ (json_copy_set_length _)
  | commit hw =>
    obtain ⟨hl, hv, hlen⟩ := ensure_loaded_inv hw s h
    obtain ⟨hm, hver⟩ := is_valid_header_fields _ hv
    constructor
    · intro _
      show lifu_cfg_is_valid ((lifu_cfg_commit hw s).2.1).cfg = true
      rw [commit_store_cfg]
      exact writeback_cfg_valid _ hm hver hlen
    · show ((lifu_cfg_commit hw s).2.1).cfg.json.length = _
      rw [commit_store_cfg, writeback_cfg_json]
      exact json_normalize_length _ hlen
  | factoryReset hw =>
    constructor
    · intro _
      show lifu_cfg_is_valid ((lifu_cfg_factory_reset hw s).2.1).cfg = true
      rw [factory_store_cfg]
      exact writeback_cfg_valid _ rfl rfl defaults_json_length
    · show ((lifu_cfg_factory_reset hw s).2.1).cfg.json.length = _
      rw [factory_store_cfg, writeback_cfg_json]
      exact json_normalize_length _ defaults_json_length

/-- Every public operation that reaches ensure_loaded leaves the store
loaded. -/
theorem runOp_sets_flag (op : LifuOp) (s : Store)
    (hop : opEnsuresLoad op = true) : (runOp op s).loaded = true := by
  cases op with
  | get hw => exact ensure_loaded_sets_flag hw s
  | snapshot b hw =>
    cases b with
    | true => exact Bool.noConfusion hop
    | false => exact ensure_loaded_sets_flag hw s
  | save cand hw =>
    show ((lifu_cfg_save cand hw s).2.1).loaded = true
    rw [save_store_loaded]
    exact ensure_loaded_sets_flag hw s
  | commit hw =>
    show ((lifu_cfg_commit hw s).2.1).loaded = true
    rw [commit_store_loaded]
    exact ensure_loaded_sets_flag hw s
  | factoryReset hw =>
    show ((lifu_cfg_factory_reset hw s).2.1).loaded = true
    rw [factory_store_loaded]
    exact ensure_loaded_sets_flag hw s

/-- Consistency is preserved along every operation sequence. -/
theorem runOps_inv (ops : List LifuOp) (s : Store) (h : StoreInv s) :
    StoreInv (runOps ops s) := by
  induction ops generalizing s with
  | nil => exact h
  | cons op rest ih => exact ih _ (runOp_preserves_inv op s h)

/-- The process start state is consistent. -/
theorem initStore_inv (f : Flash) : StoreInv (initStore f) := by
  constructor
  · intro h
    exact nomatch h
  · simp [initStore, lifu_cfg_zero]

-- ------------------- C10 -------------------

/-- C10 counterexample: a snapshot handed a NULL destination on a fresh
store returns HAL_ERROR before loading anything, leaving the zeroed,
invalid cache behind — a public operation after which the cached record
does not satisfy the validity predicate. -/
theorem null_snapshot_invalid_cache_cex :
    (lifu_cfg_snapshot true hwOK (initStore flashFF)).1 = HAL_ERROR ∧
    lifu_cfg_is_valid
      ((lifu_cfg_snapshot true hwOK (initStore flashFF)).2.2.1).cfg = false := by
  exact ⟨rfl, by decide⟩

/-- C10 amended: for every flash image, hardware behavior (erase or
program failures included) and sequence of public operations, the cached
record satisfies the validity predicate whenever the store has been
loaded, and after any operation other than a NULL-destination snapshot
it always has; only a NULL snapshot on a never-loaded store leaves the
uninitialized cache in place. -/
theorem cache_always_valid (f0 : Flash) (ops : List LifuOp) :
    ((runOps ops (initStore f0)).loaded = true →
      lifu_cfg_is_valid (runOps ops (initStore f0)).cfg = true) ∧
    (∀ op : LifuOp, opEnsuresLoad op = true →
      lifu_cfg_is_valid (runOps (ops ++ [op]) (initStore f0)).cfg = true) := by
  have hinv := runOps_inv ops (initStore f0) (initStore_inv f0)
  refine ⟨fun hld => hinv.1 hld, fun op hop => ?_⟩
  have happ : runOps (ops ++ [op]) (initStore f0) =
      runOp op (runOps ops (initStore f0)) := by
    simp [runOps, List.foldl_append]
  rw [happ]
  exact (runOp_preserves_inv op _ hinv).1 (runOp_sets_flag op _ hop)

/-- Witness for cache_always_valid at a single get on erased flash. -/
theorem cache_always_valid_witness :
    opEnsuresLoad (LifuOp.get hwOK) = true ∧
    lifu_cfg_is_valid
      (runOps ([] ++ [LifuOp.get hwOK]) (initStore flashFF)).cfg = true :=
  ⟨rfl, (cache_always_valid flashFF []).2 (LifuOp.get hwOK) rfl⟩
